import Mathlib

/-!
# Verification of the oh-brother firmware update protocol engine

Shallow embedding of the protocol core of the `brother_printer_fwupd`
package (SNMP identity walker, negotiation request builder, negotiation
response interpreter, negotiation orchestrator, transfer primitives),
with theorems settling the specification claims.
-/

namespace OhBrother

/-! ## Data model (`models.py`) -/

/-- `FWInfo` dataclass: firmware fragment info, both fields default `None`. -/
structure FWInfo where
  firmid : Option String := none
  firmver : Option String := none
deriving Repr, DecidableEq

/-- `FWInfo.is_complete`: both firmid and firmver are given. -/
def FWInfo.is_complete (fw : FWInfo) : Bool :=
  fw.firmid.isSome && fw.firmver.isSome

/-- `FWInfo.is_empty`: both firmid and firmver are `None`. -/
def FWInfo.is_empty (fw : FWInfo) : Bool :=
  fw.firmid.isNone && fw.firmver.isNone

/-- `SNMPPrinterInfo` dataclass. -/
structure SNMPPrinterInfo where
  model : Option String := none
  serial : Option String := none
  spec : Option String := none
  fw_versions : List FWInfo := []
deriving Repr, DecidableEq

/-! ## SNMP identity walker (`snmp_info.py`)

`get_snmp_info` consumes the decoded SNMP answer strings for the OID
subtree in arrival order.  Each raw answer is `strip()`ped, an empty
answer terminates the walk, and every other answer must match the regex
`SNMP_RE = (?P<name>[A-Z]+) ?= ?"(?P<value>.*)"` (checked with
`re.match`, i.e. anchored at the start only, `.*` greedy and not
crossing a newline). -/

/-- Python `str.strip()` on a character list. -/
def pyStrip (l : List Char) : List Char :=
  ((l.dropWhile Char.isWhitespace).reverse.dropWhile Char.isWhitespace).reverse

/-- Split a character list at the *last* occurrence of `c`:
`lastSplit c l = some (a, b)` iff `l = a ++ c :: b` and `c ∉ b`.
Used for the greedy `(?P<value>.*)"` part of `SNMP_RE`. -/
def lastSplit (c : Char) : List Char → Option (List Char × List Char)
  | [] => none
  | x :: xs =>
    match lastSplit c xs with
    | some (a, b) => some (x :: a, b)
    | none => if x = c then some ([], xs) else none

/-- The ` ?=` part of `SNMP_RE`: an optional single space, then `=`. -/
def expectEq : List Char → Option (List Char)
  | '=' :: r => some r
  | ' ' :: '=' :: r => some r
  | _ => none

/-- The ` ?"` part of `SNMP_RE`: an optional single space, then `"`. -/
def expectQuote : List Char → Option (List Char)
  | '"' :: r => some r
  | ' ' :: '"' :: r => some r
  | _ => none

/-- `re.match` of `SNMP_RE` against an answer string: a non-empty run of
`[A-Z]`, an optional space, `=`, an optional space, `"`, then the greedy
`.*` (not crossing a newline) up to the last matching `"`; anything may
follow the closing quote. Returns the `name` and `value` groups. -/
def matchAnswer (l : List Char) : Option (String × String) := do
  let name := l.takeWhile Char.isUpper
  if name.isEmpty then none
  else do
    let r1 ← expectEq (l.dropWhile Char.isUpper)
    let r2 ← expectQuote r1
    let (v, _) ← lastSplit '"' (r2.takeWhile (fun c => c != '\n'))
    pure (String.mk name, String.mk v)

/-- Errors of the SNMP walk (both exit the program via `print_error` +
`sys.exit(1)` in the source). -/
inductive WalkError where
  /-- `Data "..." does not match the regex.` -/
  | regexMismatch (data : String)
  /-- `Did not receive firmid or firmver from printer via SNMP` —
  the accumulator is half-filled when the walk ends. -/
  | incompletePart (fw : FWInfo)
deriving Repr, DecidableEq

/-- The body of the `nextCmd` loop of `get_snmp_info` together with the
final `fw_info.is_empty` check: processes the answers in order, breaking
at the first empty (stripped) answer; `MODEL`/`SERIAL`/`SPEC` overwrite
the identity fields; a non-empty `FIRMID`/`FIRMVER` value is stored in
the accumulator, which is appended to `fw_versions` and reset as soon as
it is complete. -/
def snmpLoop : List String → SNMPPrinterInfo → FWInfo →
    Except WalkError SNMPPrinterInfo
  | [], pi, fw =>
    if fw.is_empty then .ok pi else .error (.incompletePart fw)
  | d :: rest, pi, fw =>
    let data := pyStrip d.toList
    if data.isEmpty then
      if fw.is_empty then .ok pi else .error (.incompletePart fw)
    else
      match matchAnswer data with
      | none => .error (.regexMismatch (String.mk data))
      | some (name, value) =>
        if name = "MODEL" then snmpLoop rest { pi with model := some value } fw
        else if name = "SERIAL" then
          snmpLoop rest { pi with serial := some value } fw
        else if name = "SPEC" then
          snmpLoop rest { pi with spec := some value } fw
        else if name = "FIRMID" then
          if value ≠ "" then
            let fw' : FWInfo := { fw with firmid := some value }
            if fw'.is_complete then
              snmpLoop rest
                { pi with fw_versions := pi.fw_versions ++ [fw'] } {}
            else snmpLoop rest pi fw'
          else snmpLoop rest pi fw
        else if name = "FIRMVER" then
          if value ≠ "" then
            let fw' : FWInfo := { fw with firmver := some value }
            if fw'.is_complete then
              snmpLoop rest
                { pi with fw_versions := pi.fw_versions ++ [fw'] } {}
            else snmpLoop rest pi fw'
          else snmpLoop rest pi fw
        else snmpLoop rest pi fw

/-- `get_snmp_info`, restricted to the protocol content: the transport
(pysnmp `nextCmd`) is external, so the function consumes the decoded
answer strings it would yield. -/
def get_snmp_info (answers : List String) : Except WalkError SNMPPrinterInfo :=
  snmpLoop answers {} {}

/-- The wire form `NAME = "VALUE"` of one SNMP answer. -/
def mkAnswer (name value : String) : String :=
  name ++ " = \"" ++ value ++ "\""

/-- A sequence of alternating complete `FIRMID`/`FIRMVER` answer pairs,
terminated by an empty answer. -/
def pairsToAnswers (ps : List (String × String)) : List String :=
  (ps.map (fun p => [mkAnswer "FIRMID" p.1, mkAnswer "FIRMVER" p.2])).flatten ++ [""]

/-! ## Negotiation response interpreter (`firmware_downloader.parse_response`)

The response body is parsed by BeautifulSoup (an external XML library);
the embedding consumes the parsed view of the document: the list of its
tags as (tag name, text) pairs in document order.  `resp_xml.select(name)`
returns all tags named `name` in that order. -/

/-- A parsed XML response document: the tags in document order. -/
abbrev XMLDoc := List (String × String)

/-- The texts of all tags named `name`, in document order
(`resp_xml.select(name)` followed by `.text`). -/
def selectTags (doc : XMLDoc) (name : String) : List String :=
  (doc.filter (fun t => t.1 = name)).map Prod.snd

/-- The `ValueError`s raised by `parse_response`. -/
inductive PError where
  /-- `Expected only one tag of name '<name>' in response.` -/
  | multipleTags (name : String)
  /-- `Expected tag '<name>' to be in response.` -/
  | missingTag (name : String)
  /-- `Unknown value of 'versioncheck' in response.` -/
  | unknownVersioncheck (value : String)
deriving Repr, DecidableEq

/-- The inner `select_one` helper of `parse_response`: the unique tag of
the given name, a `ValueError` if it is absent or duplicated. -/
def select_one (doc : XMLDoc) (name : String) : Except PError String :=
  match selectTags doc name with
  | [] => .error (.missingTag name)
  | [v] => .ok v
  | _ :: _ :: _ => .error (.multipleTags name)

/-- The `LOGGER` calls made by `parse_response`, distinguishing the
outcomes that share the `(None, None)` return value. -/
inductive LogEvent where
  /-- `LOGGER.success`: firmware part seems to be up to date
  (`VERSIONCHECK = "1"`). -/
  | successUpToDate (firmid : String)
  /-- `LOGGER.error`: versioncheck value `"2"`, meaning unknown, non-fatal. -/
  | errorUnknownCode2 (firmid : String)
  /-- `LOGGER.info`: firmware update required. -/
  | infoUpdateRequired (firmid : String) (latest : String)
  /-- `LOGGER.warning`: request for one firmid was answered with another. -/
  | warningFirmidMismatch (expected got : String)
deriving Repr, DecidableEq

/-- `parse_response(response, firmid)`: returns the pair
(latest version, download URL) — both `None` for the up-to-date and
unknown-code outcomes — together with the log events, or the raised
`ValueError`. -/
def parse_response (doc : XMLDoc) (firmid : String) :
    Except PError ((Option String × Option String) × List LogEvent) := do
  let versioncheck_val ← select_one doc "VERSIONCHECK"
  if versioncheck_val = "1" then
    pure ((none, none), [.successUpToDate firmid])
  else if versioncheck_val = "0" then do
    -- Firmware update required
    let latest_version ← select_one doc "LATESTVERSION"
    let firmid_val ← select_one doc "FIRMID"
    let warn : List LogEvent :=
      if firmid_val ≠ firmid then [.warningFirmidMismatch firmid firmid_val]
      else []
    let path ← select_one doc "PATH"
    pure ((some latest_version, some path),
      [.infoUpdateRequired firmid latest_version] ++ warn)
  else if versioncheck_val = "2" then
    pure ((none, none), [.errorUnknownCode2 firmid])
  else
    .error (.unknownVersioncheck versioncheck_val)

/-! ## Negotiation request builder (`firmware_downloader.py`)

The request document is an XML tree handled through BeautifulSoup; the
embedding models the tree directly.  `soup.TAGNAME` navigation resolves
to the first element of that name in document (pre-)order, which on this
template is unique along every path used, so the mutators below edit the
first matching element of the whole tree. -/

/-- An XML tree: elements with children, or a text node. -/
inductive XTree where
  | elem (name : String) (children : List XTree)
  | text (s : String)
deriving Repr

mutual
/-- Apply `f` to the first element named `name` in pre-order; the flag
reports whether a matching element was found. -/
def editFirst (name : String) (f : XTree → XTree) : XTree → XTree × Bool
  | .text s => (.text s, false)
  | .elem n cs =>
    if n = name then (f (.elem n cs), true)
    else
      let r := editFirstList name f cs
      (.elem n r.1, r.2)

/-- `editFirst` over a forest, left to right. -/
def editFirstList (name : String) (f : XTree → XTree) :
    List XTree → List XTree × Bool
  | [] => ([], false)
  | c :: cs =>
    let r := editFirst name f c
    if r.2 then (r.1 :: cs, true)
    else
      let rs := editFirstList name f cs
      (c :: rs.1, rs.2)
end

mutual
/-- Whether the tree contains an element named `t`. -/
def hasTag : XTree → String → Bool
  | .elem n cs, t => n = t || hasTagList cs t
  | .text _, _ => false

/-- `hasTag` over a forest. -/
def hasTagList : List XTree → String → Bool
  | [], _ => false
  | c :: cs, t => hasTag c t || hasTagList cs t
end

mutual
/-- The first element named `name` in pre-order (bs4 tag navigation). -/
def getFirst (name : String) : XTree → Option XTree
  | .text _ => none
  | .elem n cs =>
    if n = name then some (.elem n cs) else getFirstList name cs

/-- `getFirst` over a forest. -/
def getFirstList (name : String) : List XTree → Option XTree
  | [] => none
  | c :: cs =>
    match getFirst name c with
    | some t => some t
    | none => getFirstList name cs
end

/-- bs4 `tag.string = val`: replace the contents of the first element of
the given name with the single text node `val`. -/
def setString (name val : String) (t : XTree) : XTree :=
  (editFirst name
    (fun x => match x with
      | .elem n _ => .elem n [.text val]
      | x => x) t).1

/-- bs4 `tag.append(child)` on the first element of the given name. -/
def appendChild (name : String) (child : XTree) (t : XTree) : XTree :=
  (editFirst name
    (fun x => match x with
      | .elem n cs => .elem n (cs ++ [child])
      | x => x) t).1

/-- bs4 `tag.replace_with(new)` on the first element named `old`. -/
def replaceTag (old : String) (new : XTree) (t : XTree) : XTree :=
  (editFirst old (fun _ => new) t).1

/-- The XML template `API_REQUEST_DATA_TEMPLATE`. -/
def API_REQUEST_DATA_TEMPLATE : XTree :=
  .elem "REQUESTINFO" [
    .elem "FIRMUPDATETOOLINFO" [
      .elem "FIRMCATEGORY" [],
      .elem "OS" [],
      .elem "INSPECTMODE" [.text "1"]],
    .elem "FIRMUPDATEINFO" [
      .elem "MODELINFO" [
        .elem "SERIALNO" [],
        .elem "NAME" [],
        .elem "SPEC" [],
        .elem "DRIVER" [],
        .elem "FIRMINFO" []],
      .elem "DRIVERCNT" [.text "1"],
      .elem "LOGNO" [.text "2"],
      .elem "ERRBIT" [],
      .elem "NEEDRESPONSE" [.text "1"]]]

/-- One `<FIRM><ID>…</ID><VERSION>…</VERSION></FIRM>` entry built in the
`for fw_info in printer_info.fw_versions` loop of `get_download_url`.
(`getD ""` stands in for the `Optional[str]` fields; every claim below
exercises the builder only with present fields.) -/
def firmTag (fw : FWInfo) : XTree :=
  .elem "FIRM" [.elem "ID" [.text (fw.firmid.getD "")],
                .elem "VERSION" [.text (fw.firmver.getD "")]]

/-- The request document built by `get_download_url` before the
modification-callback loop: the template with `FIRMCATEGORY`, `OS`,
`NAME` and `SPEC` filled in and one `FIRM` entry appended to `FIRMINFO`
per known firmware part. -/
def build_api_request (pinf : SNMPPrinterInfo) (reported_os firmid : String) :
    XTree :=
  let t := setString "FIRMCATEGORY" firmid API_REQUEST_DATA_TEMPLATE
  let t := setString "OS" reported_os t
  let t := setString "NAME" (pinf.model.getD "") t
  let t := setString "SPEC" (pinf.spec.getD "") t
  pinf.fw_versions.foldl (fun acc fw => appendChild "FIRMINFO" (firmTag fw) acc) t

/-- `apply_mfc_l3750cdw_hack`: set `DRIVER` to `"EWS"` and replace
`<SERIALNO>` with the deliberately misspelled empty tag `<SELIALNO>`. -/
def apply_mfc_l3750cdw_hack (data : XTree) : XTree :=
  let d := setString "DRIVER" "EWS" data
  replaceTag "SERIALNO" (.elem "SELIALNO" []) d

/-- Normal form of the request documents handled by the builder and the
quirk transform: the template shape with the filled-in text values, the
serial tag, the `DRIVER` contents and the `FIRMINFO` entries exposed. -/
def reqTree (cat os name spec : String) (serialTag : XTree)
    (driverChildren firms : List XTree) : XTree :=
  .elem "REQUESTINFO" [
    .elem "FIRMUPDATETOOLINFO" [
      .elem "FIRMCATEGORY" [.text cat],
      .elem "OS" [.text os],
      .elem "INSPECTMODE" [.text "1"]],
    .elem "FIRMUPDATEINFO" [
      .elem "MODELINFO" [
        serialTag,
        .elem "NAME" [.text name],
        .elem "SPEC" [.text spec],
        .elem "DRIVER" driverChildren,
        .elem "FIRMINFO" firms],
      .elem "DRIVERCNT" [.text "1"],
      .elem "LOGNO" [.text "2"],
      .elem "ERRBIT" [],
      .elem "NEEDRESPONSE" [.text "1"]]]

/-! ## Negotiation orchestrator (`firmware_downloader.get_download_url`)

The HTTP exchange is external: `respond` maps the request document sent
to the parsed view of the response body.  The result records the
requests sent (one per attempt, in order) next to the returned value or
the raised `ExceptionGroup`'s error list. -/

def get_download_url (respond : XTree → XMLDoc) (pinf : SNMPPrinterInfo)
    (reported_os firmid : String) :
    List XTree ×
      Except (List PError) ((Option String × Option String) × List LogEvent) :=
  -- modification callbacks: `copy` (identity on content), then the hack
  let req1 := build_api_request pinf reported_os firmid
  match parse_response (respond req1) firmid with
  | .ok v => ([req1], .ok v)
  | .error err1 =>
    let req2 := apply_mfc_l3750cdw_hack req1
    match parse_response (respond req2) firmid with
    | .ok v => ([req1, req2], .ok v)
    | .error err2 => ([req1, req2], .error [err1, err2])

/-! ## The per-part loop of `run` (`__main__.py`)

`run` iterates `for fw_part in printer_info.fw_versions` and calls
`get_download_url(printer_info, firmid=str(fw_part.firmid), …)`.  Only
`upload_fw` is guarded by a `try/except OSError: continue`; nothing in
`run` catches the `ExceptionGroup` raised by `get_download_url`, so it
propagates and ends the loop.  The embedding records the firmware ids
negotiated before the loop ended and the propagated error, if any. -/

/-- Python `str()` of an `Optional[str]`. -/
def pyStrOpt : Option String → String
  | some s => s
  | none => "None"

def run_fw_loop_go (respond : String → XTree → XMLDoc)
    (pinf : SNMPPrinterInfo) (reported_os : String) :
    List FWInfo → List String × Option (List PError)
  | [] => ([], none)
  | fw_part :: rest =>
    let fid := pyStrOpt fw_part.firmid
    match (get_download_url (respond fid) pinf reported_os fid).2 with
    | .error errs => ([fid], some errs)
    | .ok _ =>
      let r := run_fw_loop_go respond pinf reported_os rest
      (fid :: r.1, r.2)

/-- The `for fw_part in printer_info.fw_versions` loop of `run`,
restricted to its negotiation phase: returns the ids for which a
negotiation was performed and the uncaught error that ended the loop,
`none` if the loop ran to completion. -/
def run_fw_loop (respond : String → XTree → XMLDoc) (pinf : SNMPPrinterInfo)
    (reported_os : String) : List String × Option (List PError) :=
  run_fw_loop_go respond pinf reported_os pinf.fw_versions

/-! ## Transfer engine (`firmware_downloader.download_fw`) -/

/-- The parts of a streamed `requests` response that `download_fw`
consumes: the `content-length` header (absent when the server omits it)
and the byte chunks yielded by `iter_content`. -/
structure HTTPResponse where
  contentLengthHeader : Option Nat
  chunks : List (List Nat)
deriving Repr, DecidableEq

/-- The `for chunk in resp.iter_content(chunk_size)` loop: each chunk is
written to the file, then the progress `size_written / total_size * 100`
is computed — a `ZeroDivisionError` when `total_size` is `0` (the header
default).  On error the result carries the bytes already written to the
file before the exception. -/
def writeChunks (total_size : Nat) : List (List Nat) →
    Except (List Nat) (List Nat)
  | [] => .ok []
  | c :: cs =>
    if total_size = 0 then .error c
    else
      match writeChunks total_size cs with
      | .ok rest => .ok (c ++ rest)
      | .error written => .error (c ++ written)

/-- `utils.sluggify`: strip, lower, translate `' '→'_'`, `'@'→'-'`,
`':'→'-'`, then keep only ASCII letters, digits, `'_'` and `'-'`. -/
def sluggify (value : String) : String :=
  let v1 := (pyStrip value.toList).map Char.toLower
  let v2 := v1.map (fun c =>
    if c = ' ' then '_' else if c = '@' then '-' else if c = ':' then '-' else c)
  String.mk (v2.filter (fun c => c.isAlpha || c.isDigit || c = '_' || c = '-'))

/-- `download_fw(url, dst_dir, printer_model, fw_part, latest_version)`:
streams the response to the sluggified destination file.  The result is
the file name, the bytes written and the Python return value of the
function; the error case is the uncaught `ZeroDivisionError`, carrying
the file name and the bytes written before the exception. -/
def download_fw (resp : HTTPResponse)
    (printer_model fw_part latest_version : String) :
    Except (String × List Nat) (String × List Nat × Option String) :=
  let total_size := resp.contentLengthHeader.getD 0
  let out_file :=
    sluggify ("firmware-" ++ printer_model ++ "-" ++ fw_part ++ "-"
      ++ latest_version) ++ ".djf"
  match writeChunks total_size resp.chunks with
  | .error written => .error (out_file, written)
  | .ok content => .ok (out_file, content, none)

/-- The download/upload segment of `run`'s loop body:
`fw_file_path = download_fw(...)` followed by either the
`--download-only` skip or `upload_fw(..., fw_file_path=fw_file_path)`.
Returns the `fw_file_path` argument passed to `upload_fw` (`none` when
the upload is skipped). -/
def download_and_upload_step (resp : HTTPResponse)
    (printer_model fw_part latest_version : String) (download_only : Bool) :
    Except (String × List Nat) (Option (Option String)) :=
  match download_fw resp printer_model fw_part latest_version with
  | .error e => .error e
  | .ok (_, _, ret) => .ok (if download_only then none else some ret)

/-! ### Auxiliary lemmas about the answer regex -/

theorem lastSplit_append_self (c : Char) (l : List Char) :
    lastSplit c (l ++ [c]) = some (l, []) := by
  induction l with
  | nil => simp [lastSplit]
  | cons x xs ih => simp [lastSplit, ih]

theorem takeWhile_no_newline (v : List Char) (hv : ∀ c ∈ v, c ≠ '\n') :
    (v ++ ['"']).takeWhile (fun c => c != '\n') = v ++ ['"'] := by
  induction v with
  | nil => decide
  | cons x xs ih =>
    have hx : (x != '\n') = true := bne_iff_ne.mpr (hv x (by simp))
    have ihh := ih fun c hc => hv c (List.mem_cons_of_mem _ hc)
    simp only [List.cons_append, List.takeWhile_cons, hx, if_true, ihh]

theorem pyStrip_of_ends (x y : Char) (l : List Char)
    (hx : x.isWhitespace = false) (hy : y.isWhitespace = false) :
    pyStrip (x :: (l ++ [y])) = x :: (l ++ [y]) := by
  unfold pyStrip
  rw [List.dropWhile_cons, if_neg (by simp [hx])]
  rw [show (x :: (l ++ [y])).reverse = y :: (l.reverse ++ [x]) by simp]
  rw [List.dropWhile_cons, if_neg (by simp [hy])]
  simp

theorem toList_mkAnswer_firmid (v : String) :
    (mkAnswer "FIRMID" v).toList
      = 'F' :: 'I' :: 'R' :: 'M' :: 'I' :: 'D' :: ' ' :: '=' :: ' ' :: '"' :: (v.toList ++ ['"']) := by
  have h : ("FIRMID" ++ " = \"" : String).toList
      = 'F' :: 'I' :: 'R' :: 'M' :: 'I' :: 'D' :: ' ' :: '=' :: ' ' :: '"' ::[] := rfl
  show ("FIRMID" ++ " = \"").toList ++ v.toList ++ "\"".toList = _
  rw [h]; simp

theorem toList_mkAnswer_firmver (v : String) :
    (mkAnswer "FIRMVER" v).toList
      = 'F' :: 'I' :: 'R' :: 'M' :: 'V' :: 'E' :: 'R' :: ' ' :: '=' :: ' ' :: '"' :: (v.toList ++ ['"']) := by
  have h : ("FIRMVER" ++ " = \"" : String).toList
      = 'F' :: 'I' :: 'R' :: 'M' :: 'V' :: 'E' :: 'R' :: ' ' :: '=' :: ' ' :: '"' ::[] := rfl
  show ("FIRMVER" ++ " = \"").toList ++ v.toList ++ "\"".toList = _
  rw [h]; simp

theorem pyStrip_mkAnswer_firmid (v : String) :
    pyStrip ((mkAnswer "FIRMID" v).toList) = (mkAnswer "FIRMID" v).toList := by
  rw [toList_mkAnswer_firmid,
    show 'F' :: 'I' :: 'R' :: 'M' :: 'I' :: 'D' :: ' ' :: '=' :: ' ' :: '"' :: (v.toList ++ ['"'])
      = 'F' :: (('I' :: 'R' :: 'M' :: 'I' :: 'D' :: ' ' :: '=' :: ' ' :: '"' :: v.toList) ++ ['"']) by simp]
  exact pyStrip_of_ends _ _ _ (by decide) (by decide)

theorem pyStrip_mkAnswer_firmver (v : String) :
    pyStrip ((mkAnswer "FIRMVER" v).toList) = (mkAnswer "FIRMVER" v).toList := by
  rw [toList_mkAnswer_firmver,
    show 'F' :: 'I' :: 'R' :: 'M' :: 'V' :: 'E' :: 'R' :: ' ' :: '=' :: ' ' :: '"' :: (v.toList ++ ['"'])
      = 'F' :: (('I' :: 'R' :: 'M' :: 'V' :: 'E' :: 'R' :: ' ' :: '=' :: ' ' :: '"' :: v.toList) ++ ['"']) by simp]
  exact pyStrip_of_ends _ _ _ (by decide) (by decide)

theorem matchAnswer_firmid_reduce (t : List Char) :
    matchAnswer ('F' :: 'I' :: 'R' :: 'M' :: 'I' :: 'D' :: ' ' :: '=' :: ' ' :: '"' :: t)
      = Option.bind (lastSplit '"' (t.takeWhile (fun c => c != '\n')))
          (fun p => some ("FIRMID", String.mk p.1)) := rfl

theorem matchAnswer_firmver_reduce (t : List Char) :
    matchAnswer ('F' :: 'I' :: 'R' :: 'M' :: 'V' :: 'E' :: 'R' :: ' ' :: '=' :: ' ' :: '"' :: t)
      = Option.bind (lastSplit '"' (t.takeWhile (fun c => c != '\n')))
          (fun p => some ("FIRMVER", String.mk p.1)) := rfl

theorem matchAnswer_firmid (v : String) (hv : ∀ c ∈ v.toList, c ≠ '\n') :
    matchAnswer ((mkAnswer "FIRMID" v).toList) = some ("FIRMID", v) := by
  rw [toList_mkAnswer_firmid, matchAnswer_firmid_reduce,
    takeWhile_no_newline v.toList hv, lastSplit_append_self]
  rfl

theorem matchAnswer_firmver (v : String) (hv : ∀ c ∈ v.toList, c ≠ '\n') :
    matchAnswer ((mkAnswer "FIRMVER" v).toList) = some ("FIRMVER", v) := by
  rw [toList_mkAnswer_firmver, matchAnswer_firmver_reduce,
    takeWhile_no_newline v.toList hv, lastSplit_append_self]
  rfl

/-! ### Single-step evaluation of the walker loop -/

theorem snmpLoop_cons_firmid (i : String) (rest : List String)
    (pinf : SNMPPrinterInfo) (hi : i ≠ "") (hn : ∀ c ∈ i.toList, c ≠ '\n') :
    snmpLoop (mkAnswer "FIRMID" i :: rest) pinf {} =
      snmpLoop rest pinf { firmid := some i } := by
  simp only [snmpLoop, pyStrip_mkAnswer_firmid, matchAnswer_firmid i hn]
  rw [toList_mkAnswer_firmid]
  simp [hi, FWInfo.is_complete]

theorem snmpLoop_cons_firmver_completing (v i : String) (rest : List String)
    (pinf : SNMPPrinterInfo) (hv : v ≠ "") (hn : ∀ c ∈ v.toList, c ≠ '\n') :
    snmpLoop (mkAnswer "FIRMVER" v :: rest) pinf { firmid := some i } =
      snmpLoop rest
        { pinf with fw_versions :=
            pinf.fw_versions ++ [{ firmid := some i, firmver := some v }] } {} := by
  simp only [snmpLoop, pyStrip_mkAnswer_firmver, matchAnswer_firmver v hn]
  rw [toList_mkAnswer_firmver]
  simp [hv, FWInfo.is_complete]

theorem snmpLoop_cons_firmver_pending (v : String) (rest : List String)
    (pinf : SNMPPrinterInfo) (hv : v ≠ "") (hn : ∀ c ∈ v.toList, c ≠ '\n') :
    snmpLoop (mkAnswer "FIRMVER" v :: rest) pinf {} =
      snmpLoop rest pinf { firmver := some v } := by
  simp only [snmpLoop, pyStrip_mkAnswer_firmver, matchAnswer_firmver v hn]
  rw [toList_mkAnswer_firmver]
  simp [hv, FWInfo.is_complete]

theorem snmpLoop_pairs (ps : List (String × String)) (pinf : SNMPPrinterInfo)
    (h : ∀ p ∈ ps, p.1 ≠ "" ∧ p.2 ≠ "" ∧ (∀ c ∈ p.1.toList, c ≠ '\n') ∧
      (∀ c ∈ p.2.toList, c ≠ '\n')) :
    snmpLoop
        ((ps.map (fun p => [mkAnswer "FIRMID" p.1, mkAnswer "FIRMVER" p.2])).flatten
          ++ [""]) pinf {} =
      .ok { pinf with
        fw_versions := pinf.fw_versions ++
          ps.map (fun p => { firmid := some p.1, firmver := some p.2 }) } := by
  induction ps generalizing pinf with
  | nil => simp [snmpLoop, pyStrip, FWInfo.is_empty]
  | cons p ps ih =>
    obtain ⟨h1, h2, h3, h4⟩ := h p (List.mem_cons_self _ _)
    have hrest := fun q hq => h q (List.mem_cons_of_mem _ hq)
    simp only [List.map_cons, List.flatten_cons, List.cons_append]
    rw [snmpLoop_cons_firmid p.1 _ _ h1 h3,
      snmpLoop_cons_firmver_completing p.2 p.1 _ _ h2 h4]
    simp only [List.nil_append]
    rw [ih _ hrest]
    simp [List.append_assoc]

theorem snmpLoop_cons_firmid_completing (i v : String) (rest : List String)
    (pinf : SNMPPrinterInfo) (hi : i ≠ "") (hn : ∀ c ∈ i.toList, c ≠ '\n') :
    snmpLoop (mkAnswer "FIRMID" i :: rest) pinf { firmver := some v } =
      snmpLoop rest
        { pinf with fw_versions :=
            pinf.fw_versions ++ [{ firmid := some i, firmver := some v }] } {} := by
  simp only [snmpLoop, pyStrip_mkAnswer_firmid, matchAnswer_firmid i hn]
  rw [toList_mkAnswer_firmid]
  simp [hi, FWInfo.is_complete]

/-! ## Claim theorems about the identity walker -/

/-- C8: for every well-formed answer sequence — alternating complete
`FIRMID`/`FIRMVER` pairs in `NAME = "VALUE"` form with non-empty values,
terminated by the first empty answer — `get_snmp_info` returns a
`fw_versions` list whose length equals the number of complete pairs and
whose elements carry those (id, version) pairs in arrival order. -/
theorem c8_identity_walker_pairs (ps : List (String × String))
    (h : ∀ p ∈ ps, p.1 ≠ "" ∧ p.2 ≠ "" ∧ (∀ c ∈ p.1.toList, c ≠ '\n') ∧
      (∀ c ∈ p.2.toList, c ≠ '\n')) :
    get_snmp_info (pairsToAnswers ps) =
      .ok { fw_versions :=
        ps.map (fun p => { firmid := some p.1, firmver := some p.2 }) } := by
  unfold get_snmp_info pairsToAnswers
  rw [snmpLoop_pairs ps {} h]
  simp

/-- Witness for C8 at a concrete two-part sequence. -/
theorem c8_identity_walker_pairs_witness :
    get_snmp_info (pairsToAnswers [("MAIN", "1.0"), ("SUB", "2.0")]) =
      .ok { fw_versions := [{ firmid := some "MAIN", firmver := some "1.0" },
                            { firmid := some "SUB", firmver := some "2.0" }] } :=
  c8_identity_walker_pairs [("MAIN", "1.0"), ("SUB", "2.0")] (by decide)

/-- C5 counterexample: on the answer sequence `FIRMVER = "B"`,
`FIRMID = "A"`, `""` — a `FIRMVER` answer that is *not* preceded by an
unconsumed `FIRMID` — the walker does *not* fail with the incomplete-part
error: it returns normally and pairs the later `FIRMID` with the earlier
`FIRMVER` into the firmware part `(A, B)`. -/
theorem c5_firmver_then_firmid_counterexample :
    get_snmp_info [mkAnswer "FIRMVER" "B", mkAnswer "FIRMID" "A", ""] =
      .ok { fw_versions := [{ firmid := some "A", firmver := some "B" }] } := rfl

/-- C5 (amended): a `FIRMVER` with no pending `FIRMID` half-fills the
accumulator; the walk fails with the incomplete-part error only when the
stream then terminates with the accumulator still half-filled, while a
`FIRMID` arriving later is paired with the earlier `FIRMVER` into a
`FirmwarePart` without any error. -/
theorem c5_amended_firmver_handling (v i : String) (hv : v ≠ "")
    (hnv : ∀ c ∈ v.toList, c ≠ '\n') (hi : i ≠ "")
    (hni : ∀ c ∈ i.toList, c ≠ '\n') :
    get_snmp_info [mkAnswer "FIRMVER" v, ""] =
      .error (.incompletePart { firmver := some v }) ∧
    get_snmp_info [mkAnswer "FIRMVER" v, mkAnswer "FIRMID" i, ""] =
      .ok { fw_versions := [{ firmid := some i, firmver := some v }] } := by
  constructor
  · unfold get_snmp_info
    rw [snmpLoop_cons_firmver_pending v _ _ hv hnv]
    simp [snmpLoop, pyStrip, FWInfo.is_empty]
  · unfold get_snmp_info
    rw [snmpLoop_cons_firmver_pending v _ _ hv hnv,
      snmpLoop_cons_firmid_completing i v _ _ hi hni]
    simp [snmpLoop, pyStrip, FWInfo.is_empty]

/-- Witness for the amended C5 at concrete values. -/
theorem c5_amended_firmver_handling_witness :
    get_snmp_info [mkAnswer "FIRMVER" "B", ""] =
      .error (.incompletePart { firmver := some "B" }) ∧
    get_snmp_info [mkAnswer "FIRMVER" "B", mkAnswer "FIRMID" "A", ""] =
      .ok { fw_versions := [{ firmid := some "A", firmver := some "B" }] } :=
  c5_amended_firmver_handling "B" "A" (by decide) (by decide) (by decide)
    (by decide)

/-! ### Helper lemmas about the response interpreter -/

theorem except_error_iff_not_ok {α β : Type} (x : Except α β) :
    (∃ e, x = .error e) ↔ ¬(∃ r, x = .ok r) := by
  cases x <;> simp

theorem parse_response_vc1 (doc : XMLDoc) (fid : String)
    (hvc : selectTags doc "VERSIONCHECK" = ["1"]) :
    parse_response doc fid = .ok ((none, none), [.successUpToDate fid]) := by
  simp [parse_response, select_one, hvc, Bind.bind, Except.bind, Functor.map,
    Except.map, pure, Except.pure]

theorem parse_response_vc2 (doc : XMLDoc) (fid : String)
    (hvc : selectTags doc "VERSIONCHECK" = ["2"]) :
    parse_response doc fid = .ok ((none, none), [.errorUnknownCode2 fid]) := by
  simp [parse_response, select_one, hvc, Bind.bind, Except.bind, Functor.map,
    Except.map, pure, Except.pure]

theorem parse_response_vc0 (doc : XMLDoc) (fid l f p : String)
    (hvc : selectTags doc "VERSIONCHECK" = ["0"])
    (hl : selectTags doc "LATESTVERSION" = [l])
    (hf : selectTags doc "FIRMID" = [f])
    (hp : selectTags doc "PATH" = [p]) :
    parse_response doc fid =
      .ok ((some l, some p),
        .infoUpdateRequired fid l ::
          (if f ≠ fid then [.warningFirmidMismatch fid f] else [])) := by
  simp [parse_response, select_one, hvc, hl, hf, hp, Bind.bind, Except.bind,
    Functor.map, Except.map, pure, Except.pure]

theorem parse_response_ok_iff (doc : XMLDoc) (fid : String) :
    (∃ r, parse_response doc fid = .ok r) ↔
      (selectTags doc "VERSIONCHECK" = ["1"] ∨
       selectTags doc "VERSIONCHECK" = ["2"] ∨
       (selectTags doc "VERSIONCHECK" = ["0"] ∧
        (∃ l, selectTags doc "LATESTVERSION" = [l]) ∧
        (∃ f, selectTags doc "FIRMID" = [f]) ∧
        (∃ p, selectTags doc "PATH" = [p]))) := by
  rcases hvc : selectTags doc "VERSIONCHECK" with _ | ⟨v, _ | ⟨w, ws⟩⟩
  · simp [parse_response, select_one, hvc, Bind.bind, Except.bind, Functor.map,
      Except.map, pure, Except.pure]
  · by_cases hv1 : v = "1"
    · subst hv1
      simp [parse_response_vc1 doc fid hvc, hvc]
    by_cases hv2 : v = "2"
    · subst hv2
      simp [parse_response_vc2 doc fid hvc, hvc]
    by_cases hv0 : v = "0"
    · subst hv0
      simp only [hvc]
      rcases hl : selectTags doc "LATESTVERSION" with _ | ⟨l, _ | ⟨l2, ls⟩⟩
      · simp [parse_response, select_one, hvc, hl, Bind.bind, Except.bind,
          Functor.map, Except.map, pure, Except.pure]
      · rcases hf : selectTags doc "FIRMID" with _ | ⟨f, _ | ⟨f2, fs⟩⟩
        · simp [parse_response, select_one, hvc, hl, hf, Bind.bind, Except.bind,
          Functor.map, Except.map, pure, Except.pure]
        · rcases hp : selectTags doc "PATH" with _ | ⟨p, _ | ⟨p2, qs⟩⟩
          · simp [parse_response, select_one, hvc, hl, hf, hp, Bind.bind, Except.bind,
          Functor.map, Except.map, pure, Except.pure]
          · simp [parse_response_vc0 doc fid l f p hvc hl hf hp, hl, hf, hp]
          · simp [parse_response, select_one, hvc, hl, hf, hp, Bind.bind, Except.bind,
          Functor.map, Except.map, pure, Except.pure]
        · simp [parse_response, select_one, hvc, hl, hf, Bind.bind, Except.bind,
          Functor.map, Except.map, pure, Except.pure]
      · simp [parse_response, select_one, hvc, hl, Bind.bind, Except.bind,
          Functor.map, Except.map, pure, Except.pure]
    · simp [parse_response, select_one, hvc, hv0, hv1, hv2, Bind.bind, Except.bind,
          Functor.map, Except.map, pure, Except.pure]
  · simp [parse_response, select_one, hvc, Bind.bind, Except.bind, Functor.map,
      Except.map, pure, Except.pure]

/-! ## Claim theorems about the response interpreter -/

/-- C3 counterexample: a response with a single `VERSIONCHECK = "0"`,
`LATESTVERSION` and `PATH` both present and unique, but no `FIRMID` tag.
The claim says `parse_response` raises *exactly* when `VERSIONCHECK` is
bad or `LATESTVERSION`/`PATH` is missing — so it should succeed here —
but the code also demands a unique `FIRMID` tag and raises. -/
theorem c3_firmid_missing_counterexample :
    parse_response
        [("VERSIONCHECK", "0"), ("LATESTVERSION", "1.23"),
         ("PATH", "https://x/fw.bin")] "MAIN" =
      .error (.missingTag "FIRMID") := rfl

/-- C3 (amended): `parse_response` returns the up-to-date outcome when the
single `VERSIONCHECK` field is `"1"`; when it is `"0"` it returns the
`LATESTVERSION` value and the `PATH` download URL; when it is `"2"` it
returns the non-fatal unknown outcome without raising; and it raises a
`ValueError` exactly when `VERSIONCHECK` is absent, duplicated or has any
other value, or when `VERSIONCHECK` is `"0"` and `LATESTVERSION`,
`FIRMID` or `PATH` is absent *or duplicated*. -/
theorem c3_parse_response_outcomes (doc : XMLDoc) (fid : String) :
    (selectTags doc "VERSIONCHECK" = ["1"] →
      parse_response doc fid = .ok ((none, none), [.successUpToDate fid])) ∧
    (selectTags doc "VERSIONCHECK" = ["2"] →
      parse_response doc fid = .ok ((none, none), [.errorUnknownCode2 fid])) ∧
    (∀ l f p, selectTags doc "VERSIONCHECK" = ["0"] →
      selectTags doc "LATESTVERSION" = [l] →
      selectTags doc "FIRMID" = [f] →
      selectTags doc "PATH" = [p] →
      parse_response doc fid =
        .ok ((some l, some p),
          .infoUpdateRequired fid l ::
            (if f ≠ fid then [.warningFirmidMismatch fid f] else []))) ∧
    ((∃ e, parse_response doc fid = .error e) ↔
      ¬(selectTags doc "VERSIONCHECK" = ["1"] ∨
        selectTags doc "VERSIONCHECK" = ["2"] ∨
        (selectTags doc "VERSIONCHECK" = ["0"] ∧
         (∃ l, selectTags doc "LATESTVERSION" = [l]) ∧
         (∃ f, selectTags doc "FIRMID" = [f]) ∧
         (∃ p, selectTags doc "PATH" = [p])))) :=
  ⟨parse_response_vc1 doc fid, parse_response_vc2 doc fid,
    fun l f p hvc hl hf hp => parse_response_vc0 doc fid l f p hvc hl hf hp,
    (except_error_iff_not_ok _).trans (not_congr (parse_response_ok_iff doc fid))⟩

/-- Witness for the amended C3: a complete update-available response. -/
theorem c3_parse_response_outcomes_witness :
    parse_response
        [("VERSIONCHECK", "0"), ("LATESTVERSION", "1.23"), ("FIRMID", "MAIN"),
         ("PATH", "https://x/fw.bin")] "MAIN" =
      .ok ((some "1.23", some "https://x/fw.bin"),
        [.infoUpdateRequired "MAIN" "1.23"]) := by
  have h := (c3_parse_response_outcomes
    [("VERSIONCHECK", "0"), ("LATESTVERSION", "1.23"), ("FIRMID", "MAIN"),
     ("PATH", "https://x/fw.bin")] "MAIN").2.2.1
    "1.23" "MAIN" "https://x/fw.bin" (by decide) (by decide) (by decide)
    (by decide)
  simpa using h

/-- C10: when `VERSIONCHECK` is `"0"`, `parse_response` also raises a
`ValueError` when the response's `FIRMID` tag is absent or duplicated;
only a present, unique `FIRMID` whose value differs from the expected id
is downgraded to a non-fatal warning with the response still used. -/
theorem c10_firmid_validated (doc : XMLDoc) (fid : String) :
    (selectTags doc "VERSIONCHECK" = ["0"] →
      ¬(∃ f, selectTags doc "FIRMID" = [f]) →
      ∃ e, parse_response doc fid = .error e) ∧
    (∀ l f p, selectTags doc "VERSIONCHECK" = ["0"] →
      selectTags doc "LATESTVERSION" = [l] →
      selectTags doc "FIRMID" = [f] →
      selectTags doc "PATH" = [p] →
      f ≠ fid →
      parse_response doc fid =
        .ok ((some l, some p),
          [.infoUpdateRequired fid l, .warningFirmidMismatch fid f])) := by
  constructor
  · intro hvc hf
    rw [except_error_iff_not_ok, parse_response_ok_iff]
    simp [hvc, hf]
  · intro l f p hvc hl hf hp hne
    rw [parse_response_vc0 doc fid l f p hvc hl hf hp, if_pos hne]

/-- Witness for C10: a duplicated `FIRMID` makes the parse fail, and a
unique mismatching `FIRMID` is downgraded to a warning. -/
theorem c10_firmid_validated_witness :
    (∃ e, parse_response
        [("VERSIONCHECK", "0"), ("LATESTVERSION", "1.23"), ("FIRMID", "A"),
         ("FIRMID", "B"), ("PATH", "u")] "MAIN" = .error e) ∧
    parse_response
        [("VERSIONCHECK", "0"), ("LATESTVERSION", "1.23"), ("FIRMID", "SUB"),
         ("PATH", "u")] "MAIN" =
      .ok ((some "1.23", some "u"),
        [.infoUpdateRequired "MAIN" "1.23",
         .warningFirmidMismatch "MAIN" "SUB"]) :=
  ⟨(c10_firmid_validated
      [("VERSIONCHECK", "0"), ("LATESTVERSION", "1.23"), ("FIRMID", "A"),
       ("FIRMID", "B"), ("PATH", "u")] "MAIN").1 (by decide)
      (by rintro ⟨f, hf⟩; simp [selectTags] at hf),
   (c10_firmid_validated
      [("VERSIONCHECK", "0"), ("LATESTVERSION", "1.23"), ("FIRMID", "SUB"),
       ("PATH", "u")] "MAIN").2 "1.23" "SUB" "u" (by decide) (by decide)
      (by decide) (by decide) (by decide)⟩

/-! ### Helper lemmas about the request builder -/

theorem setString_template (fid os name spec : String) :
    setString "SPEC" spec (setString "NAME" name (setString "OS" os
        (setString "FIRMCATEGORY" fid API_REQUEST_DATA_TEMPLATE))) =
      reqTree fid os name spec (.elem "SERIALNO" []) [] [] := rfl

theorem appendChild_reqTree (cat os name spec : String)
    (firms : List XTree) (x : XTree) :
    appendChild "FIRMINFO" x
        (reqTree cat os name spec (.elem "SERIALNO" []) [] firms) =
      reqTree cat os name spec (.elem "SERIALNO" []) [] (firms ++ [x]) := rfl

theorem foldl_appendChild_reqTree (cat os name spec : String)
    (l : List FWInfo) (firms : List XTree) :
    l.foldl (fun acc fw => appendChild "FIRMINFO" (firmTag fw) acc)
        (reqTree cat os name spec (.elem "SERIALNO" []) [] firms) =
      reqTree cat os name spec (.elem "SERIALNO" []) []
        (firms ++ l.map firmTag) := by
  induction l generalizing firms with
  | nil => simp
  | cons fw l ih =>
    rw [List.foldl_cons, appendChild_reqTree, ih]
    simp

theorem build_api_request_eq (pinf : SNMPPrinterInfo)
    (reported_os firmid : String) :
    build_api_request pinf reported_os firmid =
      reqTree firmid reported_os (pinf.model.getD "") (pinf.spec.getD "")
        (.elem "SERIALNO" []) [] (pinf.fw_versions.map firmTag) := by
  dsimp only [build_api_request]
  rw [setString_template, foldl_appendChild_reqTree]
  simp

theorem apply_hack_reqTree (cat os name spec : String) (firms : List XTree) :
    apply_mfc_l3750cdw_hack
        (reqTree cat os name spec (.elem "SERIALNO" []) [] firms) =
      reqTree cat os name spec (.elem "SELIALNO" []) [.text "EWS"] firms := rfl

theorem hasTagList_map_firmTag (l : List FWInfo) (t : String)
    (h1 : t ≠ "FIRM") (h2 : t ≠ "ID") (h3 : t ≠ "VERSION") :
    hasTagList (l.map firmTag) t = false := by
  induction l with
  | nil => rfl
  | cons fw l ih =>
    simp only [List.map_cons, hasTagList, hasTag, firmTag, ih]
    simp [Ne.symm h1, Ne.symm h2, Ne.symm h3]

theorem hasTag_reqTree_serialno_quirked (cat os name spec : String)
    (firms : List FWInfo) :
    hasTag (reqTree cat os name spec (.elem "SELIALNO" []) [.text "EWS"]
      (firms.map firmTag)) "SERIALNO" = false := by
  simp [reqTree, hasTag, hasTagList,
    hasTagList_map_firmTag firms "SERIALNO" (by decide) (by decide) (by decide)]

theorem hasTag_reqTree_selialno_plain (cat os name spec : String)
    (firms : List FWInfo) :
    hasTag (reqTree cat os name spec (.elem "SERIALNO" []) []
      (firms.map firmTag)) "SELIALNO" = false := by
  simp [reqTree, hasTag, hasTagList,
    hasTagList_map_firmTag firms "SELIALNO" (by decide) (by decide) (by decide)]

/-! ## Claim theorem about the request builder -/

/-- C7: the request built with the quirk transform contains the
misspelled `SELIALNO` tag verbatim, no `SERIALNO` element, and a
`DRIVER` element holding exactly the hint value `"EWS"`; the request
built without the quirk contains the correctly spelled `SERIALNO`
element and an empty `DRIVER` element, and has neither the misspelled
tag nor the hint value in `DRIVER`. -/
theorem c7_quirk_request_shape (pinf : SNMPPrinterInfo) (os fid : String) :
    (hasTag (apply_mfc_l3750cdw_hack (build_api_request pinf os fid))
        "SELIALNO" = true ∧
     hasTag (apply_mfc_l3750cdw_hack (build_api_request pinf os fid))
        "SERIALNO" = false ∧
     getFirst "DRIVER" (apply_mfc_l3750cdw_hack (build_api_request pinf os fid))
        = some (.elem "DRIVER" [.text "EWS"])) ∧
    (hasTag (build_api_request pinf os fid) "SERIALNO" = true ∧
     hasTag (build_api_request pinf os fid) "SELIALNO" = false ∧
     getFirst "DRIVER" (build_api_request pinf os fid)
        = some (.elem "DRIVER" [])) := by
  rw [build_api_request_eq, apply_hack_reqTree]
  refine ⟨⟨rfl, hasTag_reqTree_serialno_quirked _ _ _ _ _, rfl⟩,
    ⟨rfl, hasTag_reqTree_selialno_plain _ _ _ _ _, rfl⟩⟩

/-- Witness for C7 at a concrete printer identity. -/
theorem c7_quirk_request_shape_witness :
    hasTag
        (apply_mfc_l3750cdw_hack (build_api_request
          { model := some "M", spec := some "S",
            fw_versions := [{ firmid := some "MAIN", firmver := some "1" }] }
          "LINUX" "MAIN")) "SELIALNO" = true ∧
    hasTag
        (build_api_request
          { model := some "M", spec := some "S",
            fw_versions := [{ firmid := some "MAIN", firmver := some "1" }] }
          "LINUX" "MAIN") "SERIALNO" = true :=
  ⟨(c7_quirk_request_shape
      { model := some "M", spec := some "S",
        fw_versions := [{ firmid := some "MAIN", firmver := some "1" }] }
      "LINUX" "MAIN").1.1,
   (c7_quirk_request_shape
      { model := some "M", spec := some "S",
        fw_versions := [{ firmid := some "MAIN", firmver := some "1" }] }
      "LINUX" "MAIN").2.1⟩

/-! ## Claim theorems about the negotiation orchestrator -/

/-- C4: the orchestrator never applies the quirk transform on the first
attempt and performs at most two attempts: the requests sent are either
just the plain request or the plain request followed by its quirked
mutation; any successful parse of the first response (`UpToDate`,
`UpdateAvailable` or `Unknown`, i.e. any non-`Malformed` outcome) is
returned immediately with no retry, and the quirked second attempt is
issued exactly when the first response parses as `Malformed`. -/
theorem c4_orchestrator_retry_policy (respond : XTree → XMLDoc)
    (pinf : SNMPPrinterInfo) (os fid : String) :
    ((get_download_url respond pinf os fid).1 =
        [build_api_request pinf os fid] ∨
     (get_download_url respond pinf os fid).1 =
        [build_api_request pinf os fid,
         apply_mfc_l3750cdw_hack (build_api_request pinf os fid)]) ∧
    (∀ r, parse_response (respond (build_api_request pinf os fid)) fid = .ok r →
      get_download_url respond pinf os fid =
        ([build_api_request pinf os fid], .ok r)) ∧
    (∀ e, parse_response (respond (build_api_request pinf os fid)) fid
        = .error e →
      (get_download_url respond pinf os fid).1 =
        [build_api_request pinf os fid,
         apply_mfc_l3750cdw_hack (build_api_request pinf os fid)]) := by
  cases h1 : parse_response (respond (build_api_request pinf os fid)) fid with
  | ok v => simp [get_download_url, h1]
  | error e1 =>
    cases h2 : parse_response
        (respond (apply_mfc_l3750cdw_hack (build_api_request pinf os fid)))
        fid with
    | ok v => simp [get_download_url, h1, h2]
    | error e2 => simp [get_download_url, h1, h2]

/-- Witness for C4: an up-to-date first response is returned after a
single, unquirked attempt. -/
theorem c4_orchestrator_retry_policy_witness :
    get_download_url (fun _ => [("VERSIONCHECK", "1")])
        { model := some "M", spec := some "S",
          fw_versions := [{ firmid := some "MAIN", firmver := some "1" }] }
        "LINUX" "MAIN" =
      ([build_api_request
          { model := some "M", spec := some "S",
            fw_versions := [{ firmid := some "MAIN", firmver := some "1" }] }
          "LINUX" "MAIN"],
       .ok ((none, none), [.successUpToDate "MAIN"])) :=
  (c4_orchestrator_retry_policy (fun _ => [("VERSIONCHECK", "1")])
    { model := some "M", spec := some "S",
      fw_versions := [{ firmid := some "MAIN", firmver := some "1" }] }
    "LINUX" "MAIN").2.1 ((none, none), [.successUpToDate "MAIN"]) rfl

/-- C6: if both the plain and the quirked attempt parse as `Malformed`,
the orchestrator raises the aggregate failure carrying *both* attempts'
`ValueError`s, in order — not only the last one. -/
theorem c6_aggregate_failure (respond : XTree → XMLDoc)
    (pinf : SNMPPrinterInfo) (os fid : String) (e1 e2 : PError)
    (h1 : parse_response (respond (build_api_request pinf os fid)) fid
      = .error e1)
    (h2 : parse_response
        (respond (apply_mfc_l3750cdw_hack (build_api_request pinf os fid))) fid
      = .error e2) :
    (get_download_url respond pinf os fid).2 = .error [e1, e2] := by
  simp [get_download_url, h1, h2]

/-- Witness for C6: both responses are empty documents, both parse
errors appear in the aggregate. -/
theorem c6_aggregate_failure_witness :
    (get_download_url (fun _ => [])
        { fw_versions := [{ firmid := some "MAIN", firmver := some "1" }] }
        "LINUX" "MAIN").2 =
      .error [.missingTag "VERSIONCHECK", .missingTag "VERSIONCHECK"] :=
  c6_aggregate_failure (fun _ => [])
    { fw_versions := [{ firmid := some "MAIN", firmver := some "1" }] }
    "LINUX" "MAIN" (.missingTag "VERSIONCHECK") (.missingTag "VERSIONCHECK")
    rfl rfl

/-! ## Claim theorems about the per-part loop of `run` -/

/-- C1 counterexample: a printer with two firmware parts whose
negotiations both return unparseable responses on both attempts.  The
first part's aggregate failure propagates out of the loop — nothing in
`run` catches it — so only `"MAIN"` is ever negotiated and the second
part `"FIRM"` is never attempted, contradicting the claim that the loop
still performs the negotiation for every remaining part. -/
theorem c1_negotiation_abort_counterexample :
    run_fw_loop (fun _ _ => [])
        { fw_versions := [{ firmid := some "MAIN", firmver := some "A" },
                          { firmid := some "FIRM", firmver := some "B" }] }
        "LINUX" =
      (["MAIN"], some [.missingTag "VERSIONCHECK",
                       .missingTag "VERSIONCHECK"]) := rfl

theorem run_fw_loop_go_all_ok (respond : String → XTree → XMLDoc)
    (pinf : SNMPPrinterInfo) (os : String) (l : List FWInfo)
    (h : ∀ fw ∈ l, ∃ r,
      (get_download_url (respond (pyStrOpt fw.firmid)) pinf os
        (pyStrOpt fw.firmid)).2 = .ok r) :
    run_fw_loop_go respond pinf os l =
      (l.map (fun fw => pyStrOpt fw.firmid), none) := by
  induction l with
  | nil => rfl
  | cons fw l ih =>
    obtain ⟨r, hr⟩ := h fw (List.mem_cons_self _ _)
    have ihh := ih fun q hq => h q (List.mem_cons_of_mem _ hq)
    simp [run_fw_loop_go, hr, ihh]

theorem run_fw_loop_go_abort (respond : String → XTree → XMLDoc)
    (pinf : SNMPPrinterInfo) (os : String) (pre : List FWInfo) (bad : FWInfo)
    (post : List FWInfo) (errs : List PError)
    (hpre : ∀ fw ∈ pre, ∃ r,
      (get_download_url (respond (pyStrOpt fw.firmid)) pinf os
        (pyStrOpt fw.firmid)).2 = .ok r)
    (hbad : (get_download_url (respond (pyStrOpt bad.firmid)) pinf os
      (pyStrOpt bad.firmid)).2 = .error errs) :
    run_fw_loop_go respond pinf os (pre ++ bad :: post) =
      (pre.map (fun fw => pyStrOpt fw.firmid) ++ [pyStrOpt bad.firmid],
       some errs) := by
  induction pre with
  | nil => simp [run_fw_loop_go, hbad]
  | cons fw pre ih =>
    obtain ⟨r, hr⟩ := hpre fw (List.mem_cons_self _ _)
    have ihh := ih fun q hq => hpre q (List.mem_cons_of_mem _ hq)
    simp [run_fw_loop_go, hr, ihh]

/-- C1 (amended): the per-part loop of `run` continues past every part
whose negotiation returns normally (including the no-update case), but
the aggregate negotiation failure (`ExceptionGroup`) of
`get_download_url` is caught nowhere in `run` — only upload `OSError`s
are — so it propagates and ends the loop: the parts after the first
failing one are never negotiated. -/
theorem c1_amended_negotiation_abort (respond : String → XTree → XMLDoc)
    (pinf : SNMPPrinterInfo) (os : String) :
    ((∀ fw ∈ pinf.fw_versions, ∃ r,
        (get_download_url (respond (pyStrOpt fw.firmid)) pinf os
          (pyStrOpt fw.firmid)).2 = .ok r) →
      run_fw_loop respond pinf os =
        (pinf.fw_versions.map (fun fw => pyStrOpt fw.firmid), none)) ∧
    (∀ pre bad post errs, pinf.fw_versions = pre ++ bad :: post →
      (∀ fw ∈ pre, ∃ r,
        (get_download_url (respond (pyStrOpt fw.firmid)) pinf os
          (pyStrOpt fw.firmid)).2 = .ok r) →
      (get_download_url (respond (pyStrOpt bad.firmid)) pinf os
        (pyStrOpt bad.firmid)).2 = .error errs →
      run_fw_loop respond pinf os =
        (pre.map (fun fw => pyStrOpt fw.firmid) ++ [pyStrOpt bad.firmid],
         some errs)) := by
  constructor
  · intro h
    exact run_fw_loop_go_all_ok respond pinf os pinf.fw_versions h
  · intro pre bad post errs hsplit hpre hbad
    unfold run_fw_loop
    rw [hsplit]
    exact run_fw_loop_go_abort respond pinf os pre bad post errs hpre hbad

/-- Witness for the amended C1: the first part negotiates fine, the
second fails both attempts and the loop stops there, never reaching the
third. -/
theorem c1_amended_negotiation_abort_witness :
    run_fw_loop
        (fun fid _ => if fid = "MAIN" then [("VERSIONCHECK", "1")] else [])
        { fw_versions := [{ firmid := some "MAIN", firmver := some "A" },
                          { firmid := some "FIRM", firmver := some "B" },
                          { firmid := some "SUB", firmver := some "C" }] }
        "LINUX" =
      (["MAIN", "FIRM"],
       some [.missingTag "VERSIONCHECK", .missingTag "VERSIONCHECK"]) :=
  (c1_amended_negotiation_abort
    (fun fid _ => if fid = "MAIN" then [("VERSIONCHECK", "1")] else [])
    { fw_versions := [{ firmid := some "MAIN", firmver := some "A" },
                      { firmid := some "FIRM", firmver := some "B" },
                      { firmid := some "SUB", firmver := some "C" }] }
    "LINUX").2
    [{ firmid := some "MAIN", firmver := some "A" }]
    { firmid := some "FIRM", firmver := some "B" }
    [{ firmid := some "SUB", firmver := some "C" }]
    [.missingTag "VERSIONCHECK", .missingTag "VERSIONCHECK"]
    rfl
    (by
      intro fw hfw
      rw [List.mem_singleton] at hfw
      subst hfw
      exact ⟨((none, none), [.successUpToDate "MAIN"]), rfl⟩)
    rfl

/-! ## Claim theorems about the transfer engine -/

/-- C2 (evaluating the code at the failing input): a response without a
`content-length` header and a non-empty body makes `download_fw` raise
`ZeroDivisionError` after writing the first chunk — the claimed
behavior (complete the transfer, return normally) does not happen; the
same body with the header present downloads fine. -/
theorem c2_missing_content_length_zero_division :
    download_fw ⟨none, [[1, 2, 3]]⟩ "HL-3040CN" "MAIN" "1.23" =
      .error ("firmware-hl-3040cn-main-123.djf", [1, 2, 3]) ∧
    download_fw ⟨some 3, [[1, 2, 3]]⟩ "HL-3040CN" "MAIN" "1.23" =
      .ok ("firmware-hl-3040cn-main-123.djf", [1, 2, 3], none) :=
  ⟨rfl, rfl⟩

/-- C9: `download_fw` has no return statement — whenever it completes it
returns `None` — so `run` binds `fw_file_path` to `None` and calls
`upload_fw` with `fw_file_path = None` instead of the path of the file
just written. -/
theorem c9_download_returns_none (resp : HTTPResponse)
    (printer_model fw_part latest_version : String)
    (out : String × List Nat × Option String)
    (h : download_fw resp printer_model fw_part latest_version = .ok out) :
    out.2.2 = none ∧
    download_and_upload_step resp printer_model fw_part latest_version false =
      .ok (some none) := by
  cases hw : writeChunks (resp.contentLengthHeader.getD 0) resp.chunks with
  | error w => simp [download_fw, hw] at h
  | ok content =>
    simp only [download_fw, hw] at h
    rw [Except.ok.injEq] at h
    subst h
    exact ⟨rfl, by simp [download_and_upload_step, download_fw, hw]⟩

/-- Witness for C9 at a concrete successful download. -/
theorem c9_download_returns_none_witness :
    (("firmware-hl-3040cn-main-123.djf", [1, 2, 3],
        (none : Option String)).2.2 = none) ∧
    download_and_upload_step ⟨some 3, [[1, 2, 3]]⟩ "HL-3040CN" "MAIN" "1.23"
        false = .ok (some none) :=
  c9_download_returns_none ⟨some 3, [[1, 2, 3]]⟩ "HL-3040CN" "MAIN" "1.23"
    ("firmware-hl-3040cn-main-123.djf", [1, 2, 3], none) rfl

end OhBrother
